import Mathlib

/-!
Shallow embedding of the gochannel in-process Pub/Sub engine.

The engine state is `GoChannel`; the operations `Publish`, `Subscribe`,
`Close`, `sendMessage` and `sendMessageToSubscriber` are transcribed from the
source.  Concurrency is resolved by an explicit environment: for each delivery
attempt of the resend loop the environment chooses which branch of each Go
`select` fires (`AttemptChoice`), subject to the validity constraint
`validChoice` derived from the source (the timeout branch exists only when the
timer is armed, i.e. the timeout parameter differs from the `noTimeout`
sentinel; the closing branches exist only when the closing channel has been
closed).  The lock-acquisition order of the asynchronous subscribe goroutine
is modelled as an explicit event trace `subscribeGoroutineEvents`.
-/

namespace GoChannelPubSub

/-- Sentinel duration disabling the per-send timeout (source: `noTimeout = -1`). -/
def noTimeout : Int := -1

/-- Model of `message.Message`: immutable uuid and payload plus the
acknowledgment state of this particular copy (`none` = pending,
`some true` = acked, `some false` = nacked). -/
structure Message where
  uuid : String
  payload : Nat
  ackState : Option Bool
  deriving DecidableEq

/-- Model of `message.Copy()`: an independent clone carrying the same uuid and
payload with a fresh (pending) acknowledgment state. -/
def Message.Copy (m : Message) : Message :=
  { uuid := m.uuid, payload := m.payload, ackState := none }

/-- Model of the `subscriber` struct: its uuid; its output channel is
represented implicitly by the delivery logs of the operations. -/
structure Subscriber where
  uuid : String
  deriving DecidableEq

/-- Which branch of the first `select` (push into the subscriber queue, the
timeout timer, the closing channel) fires for a given attempt. -/
inductive SendBranch
  | toSubscriber
  | timeout
  | closing
  deriving DecidableEq

/-- Which branch of the second `select` (acked, nacked, the closing channel)
fires for a given attempt, relevant once the copy was pushed. -/
inductive AckBranch
  | acked
  | nacked
  | closing
  deriving DecidableEq

/-- The environment's choice for one iteration of the resend loop. -/
structure AttemptChoice where
  sendBranch : SendBranch
  ackBranch : AckBranch
  deriving DecidableEq

/-- A choice is possible on the real machine only if the branch it picks is a
live `select` case: the timeout case exists only when the timer was armed
(`sendTimeout != noTimeout` in the source), and the closing cases only fire
once the closing channel is closed. -/
def validChoice (closingClosed : Bool) (sendTimeout : Int) (c : AttemptChoice) : Bool :=
  (if c.sendBranch = SendBranch.timeout then decide (sendTimeout ≠ noTimeout) else true) &&
  (if c.sendBranch = SendBranch.closing then closingClosed else true) &&
  (if c.ackBranch = AckBranch.closing then closingClosed else true)

/-- Validity of a whole per-subscriber attempt trace. -/
def validTrace (closingClosed : Bool) (sendTimeout : Int) (tr : List AttemptChoice) : Bool :=
  tr.all (validChoice closingClosed sendTimeout)

/-- Result of one `sendMessageToSubscriber` call.  `blocked` models the call
not having returned yet (its trace ran out before ack, timeout or closing). -/
inductive SendOutcome
  | ackedOk
  | abandonedClosing
  | timeoutError (uuid : String) (sendTimeout : Int)
  | blocked
  deriving DecidableEq

/-- The Go error value a `SendOutcome` corresponds to (`none` = nil). -/
def SendOutcome.toError : SendOutcome → Option String
  | SendOutcome.timeoutError u _ => some ("Sending message " ++ u ++ " timeouted")
  | _ => none

/-- True exactly for the timeout error outcome. -/
def SendOutcome.isTimeout : SendOutcome → Bool
  | SendOutcome.timeoutError _ _ => true
  | _ => false

/-- True for the outcomes after which the caller's loop continues to the next
subscriber or message (the source only aborts on a non-nil error). -/
def SendOutcome.continues : SendOutcome → Bool
  | SendOutcome.ackedOk => true
  | SendOutcome.abandonedClosing => true
  | _ => false

/-- Transcription of `GoChannel.sendMessageToSubscriber`: an unbounded resend
loop that copies the ORIGINAL message on every iteration, pushes the copy,
and reacts to ack / nack / timeout / closing as the environment trace
dictates.  Returns the copies actually pushed into the subscriber queue and
the outcome. -/
def sendMessageToSubscriber (msg : Message) (sendTimeout : Int) :
    List AttemptChoice → List Message × SendOutcome
  | [] => ([], SendOutcome.blocked)
  | c :: rest =>
    let msgToSend := msg.Copy
    match c.sendBranch with
    | SendBranch.timeout => ([], SendOutcome.timeoutError msgToSend.uuid sendTimeout)
    | SendBranch.closing => ([], SendOutcome.abandonedClosing)
    | SendBranch.toSubscriber =>
      match c.ackBranch with
      | AckBranch.acked => ([msgToSend], SendOutcome.ackedOk)
      | AckBranch.closing => ([msgToSend], SendOutcome.abandonedClosing)
      | AckBranch.nacked =>
        let r := sendMessageToSubscriber msg sendTimeout rest
        (msgToSend :: r.1, r.2)

/-- Engine state, transcribed from the `GoChannel` struct.  The `subscribers`
and `messages` maps are association lists; `closingClosed` records whether
the `closing` channel has been closed. -/
structure GoChannel where
  sendTimeout : Int
  outputChannelBuffer : Int
  subscribers : List (String × List Subscriber)
  closed : Bool
  closingClosed : Bool
  persistent : Bool
  messages : List (String × List Message)
  deriving DecidableEq

/-- Transcription of `NewGoChannel`. -/
def NewGoChannel (outputChannelBuffer : Int) (sendTimeout : Int) : GoChannel :=
  { sendTimeout := sendTimeout
    outputChannelBuffer := outputChannelBuffer
    subscribers := []
    closed := false
    closingClosed := false
    persistent := false
    messages := [] }

/-- Transcription of `NewPersistentGoChannel`. -/
def NewPersistentGoChannel (outputChannelBuffer : Int) (sendTimeout : Int) : GoChannel :=
  { NewGoChannel outputChannelBuffer sendTimeout with persistent := true }

/-- Go-map update `m[k] = append(m[k], vs...)`, creating the entry when
absent (as the source does for both maps). -/
def alistAppend {α : Type} : List (String × List α) → String → List α → List (String × List α)
  | [], k, vs => [(k, vs)]
  | (t, l) :: rest, k, vs =>
    if t = k then (t, l ++ vs) :: rest else (t, l) :: alistAppend rest k vs

/-- Transcription of the `for _, s := range subscribers` loop inside
`sendMessage`: serve the subscribers in list (= registration) order, abort on
the first non-nil error; `blocked` likewise stops the loop (the call never
returns).  The log pairs each pushed copy with the receiving subscriber's
uuid.  `env i` is the attempt trace for the i-th remaining subscriber. -/
def sendToSubscriberList (msg : Message) (sendTimeout : Int) :
    List Subscriber → (Nat → List AttemptChoice) → List (String × Message) × Option SendOutcome
  | [], _ => ([], none)
  | s :: rest, env =>
    let r := sendMessageToSubscriber msg sendTimeout (env 0)
    let log := r.1.map (fun c => (s.uuid, c))
    if r.2.continues then
      let rr := sendToSubscriberList msg sendTimeout rest (fun i => env (i + 1))
      (log ++ rr.1, rr.2)
    else
      (log, some r.2)

/-- Transcription of `GoChannel.sendMessage`: look up the topic's subscribers
under the registry read lock and serve them in order. -/
def sendMessage (g : GoChannel) (topic : String) (msg : Message)
    (env : Nat → List AttemptChoice) : List (String × Message) × Option SendOutcome :=
  match g.subscribers.lookup topic with
  | none => ([], none)
  | some subs => sendToSubscriberList msg g.sendTimeout subs env

/-- Transcription of the `for _, msg := range messages` loop of `Publish`:
deliver each message in order, returning on the first non-nil error (and a
blocked delivery stops everything after it).  `env i j` is the trace for
message i at subscriber j. -/
def publishLoop (g : GoChannel) (topic : String) :
    List Message → (Nat → Nat → List AttemptChoice) → List (String × Message) × Option SendOutcome
  | [], _ => ([], none)
  | m :: rest, env =>
    let r := sendMessage g topic m (env 0)
    match r.2 with
    | none =>
      let rr := publishLoop g topic rest (fun i => env (i + 1))
      (r.1 ++ rr.1, rr.2)
    | some o => (r.1, some o)

/-- What a `Publish` call does from the caller's point of view: it returned
(with a nil or non-nil error) or it is still blocked. -/
inductive PublishResult
  | returned (err : Option String)
  | blocked
  deriving DecidableEq

/-- The retention step of `Publish`: in persistent mode append the whole batch
to the topic's retention log under the retention write lock; otherwise leave
the engine unchanged. -/
def retainBatch (g : GoChannel) (topic : String) (msgs : List Message) : GoChannel :=
  if g.persistent then { g with messages := alistAppend g.messages topic msgs } else g

/-- Transcription of `GoChannel.Publish`: in persistent mode first append the
WHOLE batch to the topic's retention log under the retention write lock, then
deliver the messages one by one.  Returns the updated engine, the delivery
log, and the call result.  The `closed` flag is never consulted. -/
def Publish (g : GoChannel) (topic : String) (msgs : List Message)
    (env : Nat → Nat → List AttemptChoice) :
    GoChannel × List (String × Message) × PublishResult :=
  let g1 := retainBatch g topic msgs
  let r := publishLoop g1 topic msgs env
  match r.2 with
  | none => (g1, r.1, PublishResult.returned none)
  | some SendOutcome.blocked => (g1, r.1, PublishResult.blocked)
  | some o => (g1, r.1, PublishResult.returned o.toError)

/-- Transcription of the synchronous part of `GoChannel.Subscribe`: create the
subscriber with a fresh uuid and a newly made output channel and return
`(channel, nil)` immediately; the engine state is untouched (registration
happens in the spawned goroutine, modelled below). -/
def Subscribe (g : GoChannel) (topic : String) (newUuid : String) :
    GoChannel × Subscriber × Option String :=
  (g, { uuid := newUuid }, none)

/-- The registration step of the subscribe goroutine: append the new
subscriber to the topic's entry of the registry (created when absent). -/
def registerSubscriber (g : GoChannel) (topic : String) (s : Subscriber) : GoChannel :=
  { g with subscribers := alistAppend g.subscribers topic [s] }

/-- Transcription of the replay loop of the subscribe goroutine: send every
retained message to the new subscriber, each call made with the `noTimeout`
sentinel, stopping at the first error (which the goroutine turns into a
panic) or at a blocked send. -/
def replayLoop (s : Subscriber) :
    List Message → (Nat → List AttemptChoice) → List (String × Message) × Option SendOutcome
  | [], _ => ([], none)
  | m :: rest, env =>
    let r := sendMessageToSubscriber m noTimeout (env 0)
    let log := r.1.map (fun c => (s.uuid, c))
    if r.2.continues then
      let rr := replayLoop s rest (fun i => env (i + 1))
      (log ++ rr.1, rr.2)
    else
      (log, some r.2)

/-- The replay phase of the subscribe goroutine: in persistent mode replay the
topic's retained log (if any) to the new subscriber; otherwise do nothing. -/
def replayPhase (g : GoChannel) (topic : String) (s : Subscriber)
    (env : Nat → List AttemptChoice) : List (String × Message) × Option SendOutcome :=
  if g.persistent then
    match g.messages.lookup topic with
    | some msgs => replayLoop s msgs env
    | none => ([], none)
  else ([], none)

/-- How the subscribe goroutine ends: normally (with the subscriber
registered), in a panic (a replay send returned an error), or still blocked
inside a replay send. -/
inductive GoroutineResult
  | registered (g : GoChannel)
  | panicked (err : String)
  | stillBlocked
  deriving DecidableEq

/-- Transcription of the goroutine body of `GoChannel.Subscribe`: replay
retained history (persistent mode), panic on a replay error, then register
the subscriber.  Also returns the replay delivery log. -/
def subscribeGoroutine (g : GoChannel) (topic : String) (s : Subscriber)
    (env : Nat → List AttemptChoice) : GoroutineResult × List (String × Message) :=
  let r := replayPhase g topic s env
  match r.2 with
  | some (SendOutcome.timeoutError u t) =>
    (GoroutineResult.panicked (((SendOutcome.timeoutError u t)).toError.getD ""), r.1)
  | some SendOutcome.blocked => (GoroutineResult.stillBlocked, r.1)
  | _ => (GoroutineResult.registered (registerSubscriber g topic s), r.1)

/-- Transcription of `GoChannel.Close`: a no-op after the first call; on the
first call set the closed flag, close the closing channel, and close every
subscriber's output channel under the registry write lock.  Returns the new
state, the returned error, and the uuids of the queues that were closed. -/
def Close (g : GoChannel) : GoChannel × Option String × List String :=
  if g.closed then (g, none, [])
  else
    let g1 := { g with closed := true, closingClosed := true }
    (g1, none, (g1.subscribers.map (fun p => p.2.map Subscriber.uuid)).flatten)

/-- Lock and registration events of the subscribe goroutine, in program
order.  Transcribed from the goroutine body: take the retention read lock,
replay the retained messages, take the registry write lock, release the
retention read lock, append the subscriber, and (via defer) release the
registry write lock on return. -/
inductive SubEvent
  | retentionRLock
  | retentionRUnlock
  | registryWLock
  | registryWUnlock
  | replaySend (i : Nat)
  | appendSubscriber
  deriving DecidableEq

/-- The event trace of one run of the subscribe goroutine that replays
`replayCount` retained messages. -/
def subscribeGoroutineEvents (replayCount : Nat) : List SubEvent :=
  [SubEvent.retentionRLock]
    ++ (List.range replayCount).map SubEvent.replaySend
    ++ [SubEvent.registryWLock, SubEvent.retentionRUnlock,
        SubEvent.appendSubscriber, SubEvent.registryWUnlock]

/-- N nack rounds: the copy is pushed and nacked, N times over. -/
def nackAttempts (n : Nat) : List AttemptChoice :=
  List.replicate n { sendBranch := SendBranch.toSubscriber, ackBranch := AckBranch.nacked }

/-- The scenario of the nack-retry contract: nack N copies, ack the (N+1)th. -/
def nackNTimesThenAck (n : Nat) : List AttemptChoice :=
  nackAttempts n ++ [{ sendBranch := SendBranch.toSubscriber, ackBranch := AckBranch.acked }]

/-- Expected delivery log of a clean publish loop, used to state which copies
survive an aborted multi-message publish: the concatenation, in order, of the
per-message delivery logs. -/
def deliveredLogs (g : GoChannel) (topic : String) :
    List Message → (Nat → Nat → List AttemptChoice) → List (String × Message)
  | [], _ => []
  | m :: rest, env =>
    (sendMessage g topic m (env 0)).1 ++ deliveredLogs g topic rest (fun i => env (i + 1))

/-- Expected delivery log of serving a subscriber list in order: the
concatenation, in registration order, of each subscriber's pushed copies. -/
def perSubscriberLogs (msg : Message) (sendTimeout : Int) :
    List Subscriber → (Nat → List AttemptChoice) → List (String × Message)
  | [], _ => []
  | s :: rest, env =>
    (sendMessageToSubscriber msg sendTimeout (env 0)).1.map (fun c => (s.uuid, c))
      ++ perSubscriberLogs msg sendTimeout rest (fun i => env (i + 1))

/-- Sample message for evaluating the theorems on concrete inputs. -/
def msgSample : Message :=
  { uuid := "m1", payload := 7, ackState := none }

/-- Sample subscriber for evaluating the theorems on concrete inputs. -/
def subSample : Subscriber :=
  { uuid := "s1" }

/-- Attempt resolved by an immediate push and an ack. -/
def ackChoice : AttemptChoice :=
  { sendBranch := SendBranch.toSubscriber, ackBranch := AckBranch.acked }

/-- Attempt resolved by the timeout branch of the first select. -/
def timeoutChoice : AttemptChoice :=
  { sendBranch := SendBranch.timeout, ackBranch := AckBranch.acked }

/-- Attempt resolved by the closing branch of the first select. -/
def closingChoice : AttemptChoice :=
  { sendBranch := SendBranch.closing, ackBranch := AckBranch.closing }

/-- Sample non-persistent engine with one registered subscriber on topic t. -/
def gSample : GoChannel :=
  { sendTimeout := 5
    outputChannelBuffer := 16
    subscribers := [("t", [subSample])]
    closed := false
    closingClosed := false
    persistent := false
    messages := [] }

/-- Sample persistent engine with one registered subscriber and one retained
message on topic t. -/
def gPersistentSample : GoChannel :=
  { gSample with persistent := true, messages := [("t", [msgSample])] }

/-- Second sample message. -/
def msgSample2 : Message :=
  { uuid := "m2", payload := 8, ackState := none }

/-- Third sample message. -/
def msgSample3 : Message :=
  { uuid := "m3", payload := 9, ackState := none }

/-- Second sample subscriber. -/
def subSample2 : Subscriber :=
  { uuid := "s2" }

/-- Sample persistent engine with two subscribers registered on topic t, in
registration order subSample then subSample2. -/
def gTwoSubs : GoChannel :=
  { gPersistentSample with subscribers := [("t", [subSample, subSample2])] }

/-! Helper lemmas shared by the claim theorems. -/

/-- `retainBatch` does not touch the subscriber registry. -/
theorem retainBatch_subscribers (g : GoChannel) (topic : String) (msgs : List Message) :
    (retainBatch g topic msgs).subscribers = g.subscribers := by
  unfold retainBatch
  split <;> rfl

/-- `retainBatch` does not touch the configured send timeout. -/
theorem retainBatch_sendTimeout (g : GoChannel) (topic : String) (msgs : List Message) :
    (retainBatch g topic msgs).sendTimeout = g.sendTimeout := by
  unfold retainBatch
  split <;> rfl

/-- Looking up the updated key after a map-append finds the old entry (or the
fresh empty one) extended by the appended values. -/
theorem alistAppend_lookup {α : Type} (xs : List (String × List α)) (k : String)
    (vs : List α) :
    (alistAppend xs k vs).lookup k = some (((xs.lookup k).getD []) ++ vs) := by
  induction xs with
  | nil => simp [alistAppend, List.lookup]
  | cons p rest ih =>
    obtain ⟨t, l⟩ := p
    by_cases h : t = k
    · subst h
      simp [alistAppend, List.lookup]
    · have hk : (k == t) = false := by
        simp [beq_iff_eq]
        exact fun hkt => h hkt.symm
      simp [alistAppend, h, List.lookup, hk, ih]

/-- The nack-then-ack scenario at the resend loop: N nacks followed by an ack
deliver exactly N+1 copies of the original message and end with the ack. -/
theorem sendLoop_nack_then_ack (msg : Message) (st : Int) (N : Nat) :
    sendMessageToSubscriber msg st (nackNTimesThenAck N) =
      (List.replicate (N + 1) msg.Copy, SendOutcome.ackedOk) := by
  induction N with
  | zero =>
    simp [nackNTimesThenAck, nackAttempts, sendMessageToSubscriber, List.replicate]
  | succ n ih =>
    have hsplit : nackNTimesThenAck (n + 1) =
        { sendBranch := SendBranch.toSubscriber, ackBranch := AckBranch.nacked } ::
          nackNTimesThenAck n := by
      simp [nackNTimesThenAck, nackAttempts, List.replicate_succ]
    rw [hsplit]
    simp [sendMessageToSubscriber, ih, List.replicate_succ]

/-! Claim theorems. -/

/-- C7: Close is idempotent — after a first Close, a second Close returns no
error, closes no subscriber queue, and leaves the engine state exactly as the
first call left it. -/
theorem close_idempotent (g : GoChannel) :
    (Close (Close g).1).1 = (Close g).1 ∧
    (Close (Close g).1).2.1 = none ∧
    (Close (Close g).1).2.2 = [] := by
  by_cases h : g.closed <;> simp [Close, h]

/-- C8: Subscribe never fails — it returns the freshly created subscriber
queue and a nil error, leaving the engine untouched; the registration into
the live set happens in the asynchronous goroutine, which (when replay ends
without error) appends the subscriber to the topic's registered set. -/
theorem subscribe_always_succeeds (g : GoChannel) (topic newUuid : String) :
    (Subscribe g topic newUuid).2.2 = none ∧
    (Subscribe g topic newUuid).1 = g ∧
    (Subscribe g topic newUuid).2.1 = { uuid := newUuid } ∧
    ∀ env, (replayPhase g topic { uuid := newUuid } env).2 = none →
      (subscribeGoroutine g topic { uuid := newUuid } env).1 =
        GoroutineResult.registered (registerSubscriber g topic { uuid := newUuid }) := by
  refine ⟨rfl, rfl, rfl, ?_⟩
  intro env h
  simp [subscribeGoroutine, h]

/-- C8 witness: on the sample non-persistent engine, Subscribe succeeds with a
nil error and the goroutine registers the subscriber. -/
theorem subscribe_always_succeeds_witness :
    (replayPhase gSample "t" { uuid := "s2" } (fun _ => [])).2 = none ∧
    (subscribeGoroutine gSample "t" { uuid := "s2" } (fun _ => [])).1 =
      GoroutineResult.registered (registerSubscriber gSample "t" { uuid := "s2" }) :=
  ⟨rfl, (subscribe_always_succeeds gSample "t" "s2").2.2.2 (fun _ => []) rfl⟩

/-- C1 counterexample: in the subscribe goroutine's event trace (here with no
retained messages to replay), the shared retention read lock is released at
position 2, strictly BEFORE the subscriber is appended at position 3 — so it
is not the case that the retention lock is released only after the subscriber
has been added to the registered set. -/
theorem subscribe_retention_unlock_precedes_append :
    ¬ (∀ i j : Nat,
        (subscribeGoroutineEvents 0)[i]? = some SubEvent.retentionRUnlock →
        (subscribeGoroutineEvents 0)[j]? = some SubEvent.appendSubscriber →
        j < i) := by
  intro h
  have h23 := h 2 3 (by decide) (by decide)
  omega

/-- C1 (amended): in the subscribe goroutine the registry write lock is
acquired first, then the shared retention read lock is released, then the
subscriber is appended to the registered set, and only then is the registry
write lock released; none of these four events occurs earlier in the trace
(the earlier events are only the retention lock acquisition and the replay
sends). -/
theorem subscribe_lock_release_order (n : Nat) :
    ∃ pre : List SubEvent,
      subscribeGoroutineEvents n =
        pre ++ [SubEvent.registryWLock, SubEvent.retentionRUnlock,
                SubEvent.appendSubscriber, SubEvent.registryWUnlock] ∧
      SubEvent.registryWLock ∉ pre ∧ SubEvent.retentionRUnlock ∉ pre ∧
      SubEvent.appendSubscriber ∉ pre ∧ SubEvent.registryWUnlock ∉ pre := by
  refine ⟨SubEvent.retentionRLock :: (List.range n).map SubEvent.replaySend, ?_, ?_, ?_, ?_, ?_⟩
  · simp [subscribeGoroutineEvents]
  all_goals simp

/-- C2: a subscriber that nacks N delivered copies and acks the (N+1)th
receives exactly N+1 copies, each one produced by `Copy` of the ORIGINAL
message (same uuid and payload, fresh pending acknowledgment state), the loop
resolves with the ack, and the enclosing single-message Publish to this sole
subscriber returns success. -/
theorem nack_retries_then_ack (g : GoChannel) (topic : String) (msg : Message)
    (s : Subscriber) (N : Nat)
    (hsubs : g.subscribers.lookup topic = some [s]) :
    sendMessageToSubscriber msg g.sendTimeout (nackNTimesThenAck N) =
      (List.replicate (N + 1) msg.Copy, SendOutcome.ackedOk) ∧
    msg.Copy.ackState = none ∧ msg.Copy.uuid = msg.uuid ∧ msg.Copy.payload = msg.payload ∧
    (Publish g topic [msg] (fun _ _ => nackNTimesThenAck N)).2.2 =
      PublishResult.returned none := by
  refine ⟨sendLoop_nack_then_ack msg g.sendTimeout N, rfl, rfl, rfl, ?_⟩
  have hsubs1 : (retainBatch g topic [msg]).subscribers.lookup topic = some [s] := by
    rw [retainBatch_subscribers]
    exact hsubs
  simp [Publish, publishLoop, sendMessage, hsubs1, retainBatch_sendTimeout,
    sendToSubscriberList, sendLoop_nack_then_ack, SendOutcome.continues]

/-- C2 witness: on the sample engine with one subscriber, two nacks followed
by an ack deliver three fresh copies and the publish returns success. -/
theorem nack_retries_then_ack_witness :
    gSample.subscribers.lookup "t" = some [subSample] ∧
    sendMessageToSubscriber msgSample gSample.sendTimeout (nackNTimesThenAck 2) =
      (List.replicate 3 msgSample.Copy, SendOutcome.ackedOk) ∧
    (Publish gSample "t" [msgSample] (fun _ _ => nackNTimesThenAck 2)).2.2 =
      PublishResult.returned none := by
  have h := nack_retries_then_ack gSample "t" msgSample subSample 2 (by decide)
  exact ⟨by decide, h.1, h.2.2.2.2⟩

/-- Under the `noTimeout` sentinel the timeout select case does not exist, so
no possible trace can make the resend loop return a timeout error. -/
theorem sendLoop_noTimeout_aux (msg : Message) (cl : Bool) (tr : List AttemptChoice)
    (h : validTrace cl noTimeout tr = true) :
    (sendMessageToSubscriber msg noTimeout tr).2.isTimeout = false := by
  induction tr with
  | nil => rfl
  | cons c rest ih =>
    have h1 := h
    simp only [validTrace, List.all_cons, Bool.and_eq_true] at h1
    have hc : validChoice cl noTimeout c = true := h1.1
    have hrest : validTrace cl noTimeout rest = true := h1.2
    cases hb : c.sendBranch with
    | timeout =>
      exfalso
      simp [validChoice, hb] at hc
    | closing =>
      simp [sendMessageToSubscriber, hb, SendOutcome.isTimeout]
    | toSubscriber =>
      cases ha : c.ackBranch with
      | acked => simp [sendMessageToSubscriber, hb, ha, SendOutcome.isTimeout]
      | closing => simp [sendMessageToSubscriber, hb, ha, SendOutcome.isTimeout]
      | nacked => simpa [sendMessageToSubscriber, hb, ha] using ih hrest

/-- Serving a subscriber list with `noTimeout` sends never stops with a
timeout outcome, for any possible traces. -/
theorem sendToSubscriberList_noTimeout_aux (msg : Message) (cl : Bool)
    (subs : List Subscriber) (env : Nat → List AttemptChoice)
    (henv : ∀ i, validTrace cl noTimeout (env i) = true) :
    ∀ o, (sendToSubscriberList msg noTimeout subs env).2 = some o → o.isTimeout = false := by
  induction subs generalizing env with
  | nil =>
    intro o ho
    simp [sendToSubscriberList] at ho
  | cons s rest ih =>
    intro o ho
    by_cases hcont : (sendMessageToSubscriber msg noTimeout (env 0)).2.continues = true
    · simp [sendToSubscriberList, hcont] at ho
      exact ih (fun i => env (i + 1)) (fun i => henv (i + 1)) o ho
    · simp [sendToSubscriberList, hcont] at ho
      rw [← ho]
      exact sendLoop_noTimeout_aux msg cl (env 0) (henv 0)

/-- C3 counterexample: a negative send timeout does not disable the timeout —
only the sentinel value -1 does.  With sendTimeout = -2 the timer is armed
(the source guard is sendTimeout != noTimeout), so a send attempt can fail
with a timeout error. -/
theorem negative_timeout_not_disabled :
    ¬ (∀ g : GoChannel, g.sendTimeout < 0 →
        ∀ (msg : Message) (tr : List AttemptChoice),
          validTrace g.closingClosed g.sendTimeout tr = true →
          (sendMessageToSubscriber msg g.sendTimeout tr).2.isTimeout = false) := by
  intro h
  have hv : validTrace ({ gSample with sendTimeout := -2 } : GoChannel).closingClosed
      ({ gSample with sendTimeout := -2 } : GoChannel).sendTimeout [timeoutChoice] = true := by
    decide
  have h2 := h { gSample with sendTimeout := -2 } (by norm_num [gSample]) msgSample
    [timeoutChoice] hv
  simp [sendMessageToSubscriber, timeoutChoice, SendOutcome.isTimeout] at h2

/-- C3 (amended): for every engine configured with the sentinel send timeout
`noTimeout` (-1), the per-send timeout is disabled entirely — no send attempt
to a subscriber queue (whether through the resend loop directly or through
`sendMessage`) can resolve with a timeout error. -/
theorem noTimeout_disables_timeout (g : GoChannel) (topic : String) (msg : Message)
    (tr : List AttemptChoice) (env : Nat → List AttemptChoice)
    (hg : g.sendTimeout = noTimeout)
    (htr : validTrace g.closingClosed g.sendTimeout tr = true)
    (henv : ∀ i, validTrace g.closingClosed g.sendTimeout (env i) = true) :
    (sendMessageToSubscriber msg g.sendTimeout tr).2.isTimeout = false ∧
    ∀ o, (sendMessage g topic msg env).2 = some o → o.isTimeout = false := by
  rw [hg] at htr henv
  constructor
  · rw [hg]
    exact sendLoop_noTimeout_aux msg g.closingClosed tr htr
  · intro o ho
    unfold sendMessage at ho
    rcases hl : g.subscribers.lookup topic with _ | subs
    · rw [hl] at ho
      simp at ho
    · rw [hl] at ho
      rw [hg] at ho
      exact sendToSubscriberList_noTimeout_aux msg g.closingClosed subs env henv o ho

/-- C3 witness: with the sample engine reconfigured to the sentinel timeout,
an ack-resolved trace is possible and the resend loop does not time out. -/
theorem noTimeout_disables_timeout_witness :
    ({ gSample with sendTimeout := noTimeout } : GoChannel).sendTimeout = noTimeout ∧
    validTrace ({ gSample with sendTimeout := noTimeout } : GoChannel).closingClosed
      ({ gSample with sendTimeout := noTimeout } : GoChannel).sendTimeout [ackChoice] = true ∧
    (sendMessageToSubscriber msgSample
      ({ gSample with sendTimeout := noTimeout } : GoChannel).sendTimeout
      [ackChoice]).2.isTimeout = false := by
  have hv : validTrace ({ gSample with sendTimeout := noTimeout } : GoChannel).closingClosed
      ({ gSample with sendTimeout := noTimeout } : GoChannel).sendTimeout [ackChoice] = true := by
    decide
  exact ⟨rfl, hv,
    (noTimeout_disables_timeout { gSample with sendTimeout := noTimeout } "t" msgSample
      [ackChoice] (fun _ => [ackChoice]) rfl hv (fun _ => hv)).1⟩

/-- C5: a wait point resolved by the shutdown signal — whether while pushing
into the subscriber queue or while waiting for ack/nack, even after any
number of nack rounds — abandons delivery to that subscriber with a nil
error, and the subscriber loop of the publish path continues to the
remaining subscribers exactly as if delivery had completed. -/
theorem shutdown_silent_abandon (msg : Message) (st : Int) (N : Nat) (c : AttemptChoice)
    (hc : c.sendBranch = SendBranch.closing ∨
          (c.sendBranch = SendBranch.toSubscriber ∧ c.ackBranch = AckBranch.closing)) :
    (sendMessageToSubscriber msg st (nackAttempts N ++ [c])).2 = SendOutcome.abandonedClosing ∧
    SendOutcome.abandonedClosing.toError = none ∧
    ∀ (s : Subscriber) (subs : List Subscriber) (env : Nat → List AttemptChoice),
      env 0 = nackAttempts N ++ [c] →
      (sendToSubscriberList msg st (s :: subs) env).2 =
        (sendToSubscriberList msg st subs (fun i => env (i + 1))).2 := by
  have hmain : (sendMessageToSubscriber msg st (nackAttempts N ++ [c])).2 =
      SendOutcome.abandonedClosing := by
    induction N with
    | zero =>
      rcases hc with hb | ⟨hb, ha⟩
      · simp [nackAttempts, sendMessageToSubscriber, hb]
      · simp [nackAttempts, sendMessageToSubscriber, hb, ha]
    | succ n ih =>
      have hsplit : nackAttempts (n + 1) ++ [c] =
          { sendBranch := SendBranch.toSubscriber, ackBranch := AckBranch.nacked } ::
            (nackAttempts n ++ [c]) := by
        simp [nackAttempts, List.replicate_succ]
      rw [hsplit]
      simp [sendMessageToSubscriber, ih]
  refine ⟨hmain, rfl, ?_⟩
  intro s subs env henv
  simp [sendToSubscriberList, henv, hmain, SendOutcome.continues]

/-- C5 witness: after one nack round, a shutdown observed while waiting to
push the retried copy abandons the delivery with outcome
`abandonedClosing`, whose error is nil. -/
theorem shutdown_silent_abandon_witness :
    (closingChoice.sendBranch = SendBranch.closing ∨
      (closingChoice.sendBranch = SendBranch.toSubscriber ∧
        closingChoice.ackBranch = AckBranch.closing)) ∧
    (sendMessageToSubscriber msgSample 5 (nackAttempts 1 ++ [closingChoice])).2 =
      SendOutcome.abandonedClosing :=
  ⟨Or.inl rfl, (shutdown_silent_abandon msgSample 5 1 closingChoice (Or.inl rfl)).1⟩

/-- `sendMessage` only reads the subscriber registry and the configured send
timeout of the engine. -/
theorem sendMessage_congr (g' g : GoChannel) (h1 : g'.subscribers = g.subscribers)
    (h2 : g'.sendTimeout = g.sendTimeout) (topic : String) (m : Message)
    (env : Nat → List AttemptChoice) :
    sendMessage g' topic m env = sendMessage g topic m env := by
  unfold sendMessage
  rw [h1, h2]

/-- Serving a subscriber list where the first erroring (or blocking)
subscriber sits after the clean ones: the loop serves exactly the clean
subscribers and the failing one, in list order, and stops with that
outcome. -/
theorem sendToSubscriberList_abort (msg : Message) (st : Int)
    (ss1 : List Subscriber) (s : Subscriber) (ss2 : List Subscriber)
    (env : Nat → List AttemptChoice) (o : SendOutcome)
    (hok : ∀ (i : Nat), i < ss1.length →
      (sendMessageToSubscriber msg st (env i)).2.continues = true)
    (herr : (sendMessageToSubscriber msg st (env ss1.length)).2 = o)
    (hno : o.continues = false) :
    sendToSubscriberList msg st (ss1 ++ s :: ss2) env =
      (perSubscriberLogs msg st (ss1 ++ [s]) env, some o) := by
  induction ss1 generalizing env with
  | nil =>
    simp only [List.nil_append, List.length_nil] at herr ⊢
    simp [sendToSubscriberList, perSubscriberLogs, herr, hno]
  | cons x xs ih =>
    have h0 := hok 0 (by simp)
    have hok1 : ∀ (i : Nat), i < xs.length →
        (sendMessageToSubscriber msg st (env (i + 1))).2.continues = true := by
      intro i hi
      exact hok (i + 1) (by simpa using Nat.succ_lt_succ hi)
    have herr1 : (sendMessageToSubscriber msg st (env (xs.length + 1))).2 = o := by
      simpa [List.length_cons] using herr
    have hrec := ih (fun i => env (i + 1)) hok1 herr1
    simp only [List.cons_append]
    simp [sendToSubscriberList, perSubscriberLogs, h0, hrec]

/-- C6: for a publish of a message on a topic, its registered subscribers are
served strictly in registration order — the delivery log is the in-order
concatenation of the per-subscriber logs, each subscriber's send/ack cycle
resolving before the next is attempted — and when one subscriber's send
fails with a timeout error, delivery stops there (subscribers registered
after it receive nothing) and the publish call returns that error. -/
theorem subscribers_served_in_order (g : GoChannel) (topic : String) (msg : Message)
    (ss1 : List Subscriber) (s : Subscriber) (ss2 : List Subscriber)
    (env : Nat → List AttemptChoice) (u : String) (t : Int)
    (hsubs : g.subscribers.lookup topic = some (ss1 ++ s :: ss2))
    (hok : ∀ (i : Nat), i < ss1.length →
      (sendMessageToSubscriber msg g.sendTimeout (env i)).2.continues = true)
    (herr : (sendMessageToSubscriber msg g.sendTimeout (env ss1.length)).2 =
      SendOutcome.timeoutError u t) :
    sendMessage g topic msg env =
      (perSubscriberLogs msg g.sendTimeout (ss1 ++ [s]) env,
        some (SendOutcome.timeoutError u t)) ∧
    (Publish g topic [msg] (fun _ => env)).2.2 =
      PublishResult.returned (some ("Sending message " ++ u ++ " timeouted")) := by
  have hmain : sendMessage g topic msg env =
      (perSubscriberLogs msg g.sendTimeout (ss1 ++ [s]) env,
        some (SendOutcome.timeoutError u t)) := by
    unfold sendMessage
    rw [hsubs]
    exact sendToSubscriberList_abort msg g.sendTimeout ss1 s ss2 env
      (SendOutcome.timeoutError u t) hok herr rfl
  refine ⟨hmain, ?_⟩
  have hmain1 : sendMessage (retainBatch g topic [msg]) topic msg env =
      (perSubscriberLogs msg g.sendTimeout (ss1 ++ [s]) env,
        some (SendOutcome.timeoutError u t)) := by
    rw [sendMessage_congr (retainBatch g topic [msg]) g
      (retainBatch_subscribers g topic [msg]) (retainBatch_sendTimeout g topic [msg])]
    exact hmain
  simp [Publish, publishLoop, hmain1, SendOutcome.toError]

/-- C6 witness: with two subscribers registered in order on the sample
persistent engine, an ack from the first and a timeout at the second make
the publish path stop at the second subscriber and return the timeout
error. -/
theorem subscribers_served_in_order_witness :
    gTwoSubs.subscribers.lookup "t" = some ([subSample] ++ subSample2 :: []) ∧
    (sendMessageToSubscriber msgSample gTwoSubs.sendTimeout
      ((fun i => if i = 0 then [ackChoice] else [timeoutChoice]) 1)).2 =
      SendOutcome.timeoutError "m1" 5 ∧
    sendMessage gTwoSubs "t" msgSample (fun i => if i = 0 then [ackChoice] else [timeoutChoice]) =
      (perSubscriberLogs msgSample gTwoSubs.sendTimeout ([subSample] ++ [subSample2])
        (fun i => if i = 0 then [ackChoice] else [timeoutChoice]),
        some (SendOutcome.timeoutError "m1" 5)) := by
  have hok : ∀ (i : Nat), i < ([subSample] : List Subscriber).length →
      (sendMessageToSubscriber msgSample gTwoSubs.sendTimeout
        ((fun i => if i = 0 then [ackChoice] else [timeoutChoice]) i)).2.continues = true := by
    intro i hi
    have hi0 : i = 0 := by
      simpa using hi
    subst hi0
    decide
  exact ⟨by decide, by decide,
    (subscribers_served_in_order gTwoSubs "t" msgSample [subSample] subSample2 []
      (fun i => if i = 0 then [ackChoice] else [timeoutChoice]) "m1" 5
      (by decide) hok (by decide)).1⟩

/-- The publish loop with the first erroring (or blocking) message after a
run of cleanly delivered ones: the messages before and the failing one are
delivered (in order), nothing after it is attempted, and the loop stops with
that outcome. -/
theorem publishLoop_abort (g : GoChannel) (topic : String)
    (ms1 : List Message) (m : Message) (ms2 : List Message)
    (env : Nat → Nat → List AttemptChoice) (o : SendOutcome)
    (hok : ∀ (i : Nat) (hi : i < ms1.length),
      (sendMessage g topic (ms1.get ⟨i, hi⟩) (env i)).2 = none)
    (herr : (sendMessage g topic m (env ms1.length)).2 = some o) :
    publishLoop g topic (ms1 ++ m :: ms2) env =
      (deliveredLogs g topic (ms1 ++ [m]) env, some o) := by
  induction ms1 generalizing env with
  | nil =>
    simp only [List.nil_append, List.length_nil] at herr ⊢
    simp [publishLoop, deliveredLogs, herr]
  | cons x xs ih =>
    have h0 : (sendMessage g topic x (env 0)).2 = none := hok 0 (by simp)
    have hok1 : ∀ (i : Nat) (hi : i < xs.length),
        (sendMessage g topic (xs.get ⟨i, hi⟩) (env (i + 1))).2 = none := by
      intro i hi
      have := hok (i + 1) (by simpa using Nat.succ_lt_succ hi)
      simpa [List.get_cons_succ] using this
    have herr1 : (sendMessage g topic m (env (xs.length + 1))).2 = some o := by
      simpa [List.length_cons] using herr
    have hrec := ih (fun i => env (i + 1)) hok1 herr1
    simp only [List.cons_append]
    simp [publishLoop, deliveredLogs, h0, hrec]

/-- C4: when delivery of one message of a multi-message publish returns an
error after a run of cleanly delivered messages, the publish call returns
that error, the messages after the failing one are never delivered (the log
covers exactly the clean run and the failing message), the retention append
of the WHOLE batch has already happened (persistent mode), and neither the
retention entries nor the already-delivered copies are rolled back. -/
theorem publish_abort_no_rollback (g : GoChannel) (topic : String)
    (ms1 : List Message) (m : Message) (ms2 : List Message)
    (env : Nat → Nat → List AttemptChoice) (u : String) (t : Int)
    (hok : ∀ (i : Nat) (hi : i < ms1.length),
      (sendMessage (retainBatch g topic (ms1 ++ m :: ms2)) topic (ms1.get ⟨i, hi⟩)
        (env i)).2 = none)
    (herr : (sendMessage (retainBatch g topic (ms1 ++ m :: ms2)) topic m
      (env ms1.length)).2 = some (SendOutcome.timeoutError u t)) :
    Publish g topic (ms1 ++ m :: ms2) env =
      (retainBatch g topic (ms1 ++ m :: ms2),
        deliveredLogs (retainBatch g topic (ms1 ++ m :: ms2)) topic (ms1 ++ [m]) env,
        PublishResult.returned (some ("Sending message " ++ u ++ " timeouted"))) ∧
    (g.persistent = true →
      (retainBatch g topic (ms1 ++ m :: ms2)).messages.lookup topic =
        some (((g.messages.lookup topic).getD []) ++ (ms1 ++ m :: ms2))) := by
  constructor
  · have h := publishLoop_abort (retainBatch g topic (ms1 ++ m :: ms2)) topic ms1 m ms2 env
      (SendOutcome.timeoutError u t) hok herr
    simp [Publish, h, SendOutcome.toError]
  · intro hp
    simp [retainBatch, hp, alistAppend_lookup]

/-- C4 witness: on the sample persistent engine, a three-message publish whose
second message times out returns the timeout error, delivers only the first
two messages' copies, and the whole batch sits in retention. -/
theorem publish_abort_no_rollback_witness :
    (sendMessage (retainBatch gPersistentSample "t" ([msgSample] ++ msgSample2 :: [msgSample3]))
      "t" msgSample2
      ((fun i _ => if i = 0 then [ackChoice] else [timeoutChoice]) ([msgSample].length))).2 =
      some (SendOutcome.timeoutError "m2" 5) ∧
    Publish gPersistentSample "t" ([msgSample] ++ msgSample2 :: [msgSample3])
      (fun i _ => if i = 0 then [ackChoice] else [timeoutChoice]) =
      (retainBatch gPersistentSample "t" ([msgSample] ++ msgSample2 :: [msgSample3]),
        deliveredLogs (retainBatch gPersistentSample "t" ([msgSample] ++ msgSample2 :: [msgSample3]))
          "t" ([msgSample] ++ [msgSample2])
          (fun i _ => if i = 0 then [ackChoice] else [timeoutChoice]),
        PublishResult.returned (some ("Sending message " ++ "m2" ++ " timeouted"))) := by
  have hok : ∀ (i : Nat) (hi : i < ([msgSample] : List Message).length),
      (sendMessage (retainBatch gPersistentSample "t" ([msgSample] ++ msgSample2 :: [msgSample3]))
        "t" (([msgSample] : List Message).get ⟨i, hi⟩)
        ((fun i _ => if i = 0 then [ackChoice] else [timeoutChoice]) i)).2 = none := by
    intro i hi
    have hi0 : i = 0 := by
      simpa using hi
    subst hi0
    have h := (by decide :
      (sendMessage (retainBatch gPersistentSample "t" ([msgSample] ++ msgSample2 :: [msgSample3]))
        "t" msgSample
        ((fun i _ => if i = 0 then [ackChoice] else [timeoutChoice]) 0)).2 = none)
    exact h
  have herr : (sendMessage (retainBatch gPersistentSample "t"
      ([msgSample] ++ msgSample2 :: [msgSample3])) "t" msgSample2
      ((fun i _ => if i = 0 then [ackChoice] else [timeoutChoice])
        (([msgSample] : List Message).length))).2 =
      some (SendOutcome.timeoutError "m2" 5) := by
    decide
  exact ⟨herr,
    (publish_abort_no_rollback gPersistentSample "t" [msgSample] msgSample2 [msgSample3]
      (fun i _ => if i = 0 then [ackChoice] else [timeoutChoice]) "m2" 5 hok herr).1⟩

/-- Replaying a retained log with `noTimeout` sends never stops with a
timeout outcome, for any possible traces. -/
theorem replayLoop_noTimeout_aux (s : Subscriber) (cl : Bool) (msgs : List Message)
    (env : Nat → List AttemptChoice)
    (henv : ∀ i, validTrace cl noTimeout (env i) = true) :
    ∀ u t, (replayLoop s msgs env).2 ≠ some (SendOutcome.timeoutError u t) := by
  induction msgs generalizing env with
  | nil =>
    intro u t h
    simp [replayLoop] at h
  | cons m rest ih =>
    intro u t h
    by_cases hcont : (sendMessageToSubscriber m noTimeout (env 0)).2.continues = true
    · simp [replayLoop, hcont] at h
      exact ih (fun i => env (i + 1)) (fun i => henv (i + 1)) u t h
    · simp [replayLoop, hcont] at h
      have hnt := sendLoop_noTimeout_aux m cl (env 0) (henv 0)
      rw [h] at hnt
      simp [SendOutcome.isTimeout] at hnt

/-- When the replay phase does not end in a timeout error, the subscribe
goroutine cannot end in a panic. -/
theorem subscribeGoroutine_no_panic (g : GoChannel) (topic : String) (s : Subscriber)
    (env : Nat → List AttemptChoice)
    (h : ∀ u t, (replayPhase g topic s env).2 ≠ some (SendOutcome.timeoutError u t))
    (e : String) :
    (subscribeGoroutine g topic s env).1 ≠ GoroutineResult.panicked e := by
  unfold subscribeGoroutine
  rcases hr : (replayPhase g topic s env).2 with _ | o
  · simp [hr]
  · cases o with
    | timeoutError u t => exact absurd hr (h u t)
    | ackedOk => simp [hr]
    | abandonedClosing => simp [hr]
    | blocked => simp [hr]

/-- C9: every replay send of retained history to a new subscriber is made
with the timeout disabled — whatever send timeout the engine was constructed
with, no possible replay run produces a timeout error, hence the goroutine
never panics; and (the panic path) if a replay send did return a timeout
error, the goroutine would panic with that error. -/
theorem replay_ignores_configured_timeout (g : GoChannel) (topic : String) (s : Subscriber) :
    (∀ env, (∀ i, validTrace g.closingClosed noTimeout (env i) = true) →
      (∀ u t, (replayPhase g topic s env).2 ≠ some (SendOutcome.timeoutError u t)) ∧
      (∀ e, (subscribeGoroutine g topic s env).1 ≠ GoroutineResult.panicked e)) ∧
    (∀ env u t, (replayPhase g topic s env).2 = some (SendOutcome.timeoutError u t) →
      (subscribeGoroutine g topic s env).1 =
        GoroutineResult.panicked ("Sending message " ++ u ++ " timeouted")) := by
  constructor
  · intro env henv
    have hnt : ∀ u t, (replayPhase g topic s env).2 ≠ some (SendOutcome.timeoutError u t) := by
      intro u t
      unfold replayPhase
      by_cases hp : g.persistent
      · simp only [hp, if_true]
        rcases hl : g.messages.lookup topic with _ | msgs
        · simp
        · exact replayLoop_noTimeout_aux s g.closingClosed msgs env henv u t
      · simp [hp]
    exact ⟨hnt, subscribeGoroutine_no_panic g topic s env hnt⟩
  · intro env u t h
    simp [subscribeGoroutine, h, SendOutcome.toError]

/-- C9 witness: on the sample persistent engine (send timeout 5), a replay of
the retained message resolved by an immediate ack produces no timeout
error and the goroutine does not panic. -/
theorem replay_ignores_configured_timeout_witness :
    (∀ i : Nat, validTrace gPersistentSample.closingClosed noTimeout
      ((fun _ : Nat => [ackChoice]) i) = true) ∧
    (∀ (u : String) (t : Int),
      (replayPhase gPersistentSample "t" subSample (fun _ : Nat => [ackChoice])).2 ≠
        some (SendOutcome.timeoutError u t)) := by
  have hv : validTrace gPersistentSample.closingClosed noTimeout [ackChoice] = true := by
    decide
  exact ⟨fun _ => hv,
    ((replay_ignores_configured_timeout gPersistentSample "t" subSample).1
      (fun _ : Nat => [ackChoice]) (fun _ => hv)).1⟩

/-- The publish delivery loop is insensitive to the closed flag and the
closing-channel state of the engine record. -/
theorem publishLoop_closed_irrel (g : GoChannel) (b bc : Bool) (topic : String)
    (msgs : List Message) (env : Nat → Nat → List AttemptChoice) :
    publishLoop { g with closed := b, closingClosed := bc } topic msgs env =
      publishLoop g topic msgs env := by
  induction msgs generalizing env with
  | nil => rfl
  | cons m rest ih =>
    simp only [publishLoop]
    rw [sendMessage_congr { g with closed := b, closingClosed := bc } g rfl rfl, ih]

/-- Flipping the closed flag (and closing state) commutes with the retention
append of a publish. -/
theorem retainBatch_closed_comm (g : GoChannel) (b bc : Bool) (topic : String)
    (msgs : List Message) :
    retainBatch { g with closed := b, closingClosed := bc } topic msgs =
      { retainBatch g topic msgs with closed := b, closingClosed := bc } := by
  unfold retainBatch
  by_cases hp : g.persistent <;> simp [hp]

/-- With every wait point resolved by the shutdown signal, serving any
subscriber list pushes nothing and reports no error. -/
theorem sendToSubscriberList_closing_env (msg : Message) (st : Int) (subs : List Subscriber) :
    sendToSubscriberList msg st subs (fun _ => [closingChoice]) = ([], none) := by
  induction subs with
  | nil => rfl
  | cons s rest ih =>
    simp [sendToSubscriberList, sendMessageToSubscriber, closingChoice,
      SendOutcome.continues]
    exact ih

/-- With every wait point resolved by the shutdown signal, `sendMessage`
reports no error for any topic. -/
theorem sendMessage_closing_env (g : GoChannel) (topic : String) (m : Message) :
    sendMessage g topic m (fun _ => [closingChoice]) = ([], none) := by
  unfold sendMessage
  rcases hl : g.subscribers.lookup topic with _ | subs
  · rfl
  · exact sendToSubscriberList_closing_env m g.sendTimeout subs

/-- With every wait point resolved by the shutdown signal, the whole publish
loop reports no error. -/
theorem publishLoop_closing_env (g : GoChannel) (topic : String) (msgs : List Message) :
    publishLoop g topic msgs (fun _ _ => [closingChoice]) = ([], none) := by
  induction msgs with
  | nil => rfl
  | cons m rest ih =>
    simp [publishLoop, sendMessage_closing_env, ih]

/-- C10: Publish never consults the closed flag — its retention effect,
delivery log and result are unchanged under any value of the closed flag and
closing state — so after Close, a persistent-mode Publish still appends the
whole batch to the topic's retention log, and (with every wait point
resolved by the now-armed shutdown signal, a trace that is valid after
Close) returns nil. -/
theorem publish_ignores_closed (g : GoChannel) (topic : String) (msgs : List Message)
    (env : Nat → Nat → List AttemptChoice) (hp : g.persistent = true)
    (hcl : g.closed = false) :
    (∀ b bc : Bool,
      (Publish { g with closed := b, closingClosed := bc } topic msgs env).1.messages =
        (Publish g topic msgs env).1.messages ∧
      (Publish { g with closed := b, closingClosed := bc } topic msgs env).2 =
        (Publish g topic msgs env).2) ∧
    (Publish (Close g).1 topic msgs (fun _ _ => [closingChoice])).2.2 =
      PublishResult.returned none ∧
    (Publish (Close g).1 topic msgs (fun _ _ => [closingChoice])).1.messages.lookup topic =
      some (((g.messages.lookup topic).getD []) ++ msgs) ∧
    validTrace (Close g).1.closingClosed (Close g).1.sendTimeout [closingChoice] = true := by
  have hclose : (Close g).1 = { g with closed := true, closingClosed := true } := by
    simp [Close, hcl]
  refine ⟨?_, ?_, ?_, ?_⟩
  · intro b bc
    constructor
    · simp only [Publish]
      rw [retainBatch_closed_comm, publishLoop_closed_irrel]
      rcases (publishLoop (retainBatch g topic msgs) topic msgs env).2 with _ | o
      · rfl
      · cases o <;> rfl
    · simp only [Publish]
      rw [retainBatch_closed_comm, publishLoop_closed_irrel]
      rcases (publishLoop (retainBatch g topic msgs) topic msgs env).2 with _ | o
      · rfl
      · cases o <;> rfl
  · rw [hclose]
    simp only [Publish]
    rw [retainBatch_closed_comm, publishLoop_closed_irrel, publishLoop_closing_env]
  · rw [hclose]
    simp only [Publish]
    rw [retainBatch_closed_comm, publishLoop_closed_irrel, publishLoop_closing_env]
    simp only [retainBatch, hp, if_true]
    simp [alistAppend_lookup]
  · rw [hclose]
    simp [validTrace, validChoice, closingChoice]

/-- C10 witness: the sample persistent engine, once closed, still appends a
published message to retention and the publish returns nil. -/
theorem publish_ignores_closed_witness :
    gPersistentSample.persistent = true ∧ gPersistentSample.closed = false ∧
    (Publish (Close gPersistentSample).1 "t" [msgSample2]
      (fun _ _ => [closingChoice])).2.2 = PublishResult.returned none ∧
    (Publish (Close gPersistentSample).1 "t" [msgSample2]
      (fun _ _ => [closingChoice])).1.messages.lookup "t" =
      some (((gPersistentSample.messages.lookup "t").getD []) ++ [msgSample2]) := by
  have h := publish_ignores_closed gPersistentSample "t" [msgSample2]
    (fun _ _ => [closingChoice]) rfl rfl
  exact ⟨rfl, rfl, h.2.1, h.2.2.1⟩

end GoChannelPubSub
